import Mathlib

/-!
Verification of the LHUMS multi-tenant user-management backend against its
specification.  The Python source (Flask + SQLAlchemy) is shallowly embedded:
ORM rows become Lean structures, the database session becomes an explicit
`Database` value, `datetime.utcnow()` becomes an explicit `now : Int`
parameter (measured in minutes), and route handlers become pure functions
returning an `ApiResult` together with the updated database.
-/

namespace LHUMS

/- Timestamps are plain `Int` values, in minutes since an arbitrary epoch:
the code compares and adds `datetime`/`timedelta` values only, so any
linearly ordered additive model of time is faithful. -/

/-- The werkzeug password-hash primitive is an out-of-scope collaborator
("a pluggable one-way hash with verify").  It is modelled as an injective
encoding: `check_password_hash (generate_password_hash p) q` holds exactly
when `p = q`, the ideal behaviour of `generate_password_hash` /
`check_password_hash` used by `app/models/user.py`. -/
structure HashVal where
  digest : String
deriving DecidableEq, Repr

/-- Model of `werkzeug.security.generate_password_hash`. -/
def generate_password_hash (password : String) : HashVal :=
  ⟨password⟩

/-- Model of `werkzeug.security.check_password_hash`. -/
def check_password_hash (h : HashVal) (password : String) : Bool :=
  h == generate_password_hash password

/-- Python's `l[-n:]` slice: the last `n` elements of a list. -/
def lastN {α : Type} (n : Nat) (l : List α) : List α :=
  l.drop (l.length - n)

/-- `users` table, `src/app/models/user.py` (columns the core logic reads or
writes; ORM bookkeeping columns such as `created_at` are omitted). -/
structure User where
  id : Nat
  username : String
  email : String
  password_hash : Option HashVal
  is_active : Bool
  is_admin : Bool
  email_verified : Bool
  locked_until : Option Int
  failed_login_attempts : Nat
  last_login_at : Option Int
  password_changed_at : Option Int
  password_expires_at : Option Int
  password_history : List HashVal
  require_password_change : Bool
deriving DecidableEq, Repr

/-- `User.set_password` (`src/app/models/user.py` lines 36-53): push the
current hash into the history truncated to the last 5, store the new hash,
stamp `password_changed_at`, set expiry 90 days (129600 minutes) ahead and
clear the forced-change flag. -/
def User.set_password (u : User) (now : Int) (password : String) : User :=
  let u' :=
    match u.password_hash with
    | some h => { u with password_history := lastN 5 (u.password_history ++ [h]) }
    | none => u
  { u' with
      password_hash := some (generate_password_hash password)
      password_changed_at := some now
      password_expires_at := some (now + 90 * 24 * 60)
      require_password_change := false }

/-- `User.check_password_reuse` (`src/app/models/user.py` lines 65-75):
true when the candidate password matches any retained historical hash. -/
def User.check_password_reuse (u : User) (password : String) : Bool :=
  u.password_history.any (fun old_hash => check_password_hash old_hash password)

/-- `User.is_password_expired` (`src/app/models/user.py` lines 59-63). -/
def User.is_password_expired (u : User) (now : Int) : Bool :=
  match u.password_expires_at with
  | none => false
  | some t => now > t

/-- `User.is_locked` (`src/app/models/user.py` lines 77-81): locked iff
`locked_until` is set and strictly in the future. -/
def User.is_locked (u : User) (now : Int) : Bool :=
  match u.locked_until with
  | none => false
  | some t => now < t

/-- `User.lock_account` (`src/app/models/user.py` lines 83-87). -/
def User.lock_account (u : User) (now : Int) (duration_minutes : Int) : User :=
  { u with locked_until := some (now + duration_minutes), failed_login_attempts := 0 }

/-- `User.unlock_account` (`src/app/models/user.py` lines 89-92). -/
def User.unlock_account (u : User) : User :=
  { u with locked_until := none, failed_login_attempts := 0 }

/-- `User.record_login_attempt` (`src/app/models/user.py` lines 94-103):
success resets the counter and stamps the login time; failure increments the
counter and locks the account (default 30 minutes) once it reaches 5. -/
def User.record_login_attempt (u : User) (now : Int) (success : Bool) : User :=
  if success then
    { u with failed_login_attempts := 0, last_login_at := some now }
  else
    let u' := { u with failed_login_attempts := u.failed_login_attempts + 1 }
    if u'.failed_login_attempts ≥ 5 then u'.lock_account now 30 else u'

/-- Fold `record_login_attempt success := false` over a list of call times. -/
def record_failures (u : User) (times : List Int) : User :=
  times.foldl (fun acc t => acc.record_login_attempt t false) u

/-- Fold `set_password` over a list of plaintexts (all at clock `now`). -/
def set_passwords (u : User) (now : Int) (passwords : List String) : User :=
  passwords.foldl (fun acc p => acc.set_password now p) u

/-- `labs` table, `src/app/models/lab.py`. -/
structure Lab where
  id : Nat
  name : String
  code : String
  is_active : Bool
deriving DecidableEq, Repr

/-- `lab_memberships` table, `src/app/models/lab.py`. -/
structure LabMembership where
  user_id : Nat
  lab_id : Nat
  role : String
  is_active : Bool
deriving DecidableEq, Repr

/-- `attributes` table, `src/app/models/attribute.py`. -/
structure Attribute where
  id : Nat
  name : String
  category : String
  is_active : Bool
deriving DecidableEq, Repr

/-- `role_attributes` table, `src/app/models/attribute.py`
(`lab_id = none` means a system-wide grant for the role). -/
structure RoleAttribute where
  role_name : String
  attribute_id : Nat
  lab_id : Option Nat
  granted_by : Option Nat
  granted_at : Int
deriving DecidableEq, Repr

/-- `user_lab_attributes` table, `src/app/models/attribute.py`. -/
structure UserLabAttribute where
  user_id : Nat
  lab_id : Nat
  attribute_id : Nat
  granted_by : Nat
  granted_at : Int
  expires_at : Option Int
  is_active : Bool
deriving DecidableEq, Repr

/-- `UserLabAttribute.is_expired` (`src/app/models/attribute.py` lines
100-104): expired iff an expiry is set and the clock is strictly past it. -/
def UserLabAttribute.is_expired (g : UserLabAttribute) (now : Int) : Bool :=
  match g.expires_at with
  | none => false
  | some t => now > t

/-- `UserLabAttribute.is_valid` (`src/app/models/attribute.py` lines
106-108). -/
def UserLabAttribute.is_valid (g : UserLabAttribute) (now : Int) : Bool :=
  g.is_active && !(g.is_expired now)

/-- `password_reset_tokens` table, `src/app/models/token.py`. -/
structure PasswordResetToken where
  user_id : Nat
  token : String
  expires_at : Int
  used : Bool
deriving DecidableEq, Repr

/-- `PasswordResetToken.is_valid` (`src/app/models/token.py` lines 32-34). -/
def PasswordResetToken.is_valid (t : PasswordResetToken) (now : Int) : Bool :=
  !t.used && now < t.expires_at

/-- `PasswordResetToken.mark_used` (`src/app/models/token.py` lines 36-38). -/
def PasswordResetToken.mark_used (t : PasswordResetToken) : PasswordResetToken :=
  { t with used := true }

/-- `email_verification_tokens` table, `src/app/models/token.py` (carries the
candidate new email). -/
structure EmailVerificationToken where
  user_id : Nat
  email : String
  token : String
  expires_at : Int
  used : Bool
deriving DecidableEq, Repr

/-- `EmailVerificationToken.is_valid` (`src/app/models/token.py` lines 72-74). -/
def EmailVerificationToken.is_valid (t : EmailVerificationToken) (now : Int) : Bool :=
  !t.used && now < t.expires_at

/-- `EmailVerificationToken.mark_used` (`src/app/models/token.py` lines 76-78). -/
def EmailVerificationToken.mark_used (t : EmailVerificationToken) : EmailVerificationToken :=
  { t with used := true }

/-- The relational store: one list per table the claims touch. -/
structure Database where
  users : List User
  labs : List Lab
  memberships : List LabMembership
  attributes : List Attribute
  role_attributes : List RoleAttribute
  user_lab_attributes : List UserLabAttribute
deriving DecidableEq, Repr

/-- `User.query.get(user_id)`: primary-key lookup. -/
def Database.get_user (db : Database) (user_id : Nat) : Option User :=
  db.users.find? (fun u => u.id == user_id)

/-- `Attribute.get_lab_attributes` (`src/app/models/attribute.py` lines
28-31): all active attributes of category `lab`. -/
def Attribute.get_lab_attributes (attrs : List Attribute) : List Attribute :=
  attrs.filter (fun a => a.category == "lab" && a.is_active)

/-- A route handler outcome: an HTTP status with either a payload or an
error message (the `jsonify(...), status` pairs of the Flask routes). -/
inductive ApiResult (α : Type) where
  | ok (status : Nat) (payload : α)
  | error (status : Nat) (message : String)
deriving DecidableEq, Repr

/-- `get_current_user_labs` (`src/app/utils/tenant_context.py` lines 8-27):
system admins see every active lab id; other callers see the lab ids of
their active membership rows. -/
def get_current_user_labs (db : Database) (user_id : Nat) : List Nat :=
  let admin :=
    match db.get_user user_id with
    | some u => u.is_admin
    | none => false
  if admin then
    (db.labs.filter (fun l => l.is_active)).map (fun l => l.id)
  else
    (db.memberships.filter (fun m => m.user_id == user_id && m.is_active)).map
      (fun m => m.lab_id)

/-- `verify_lab_access` (`src/app/utils/tenant_context.py` lines 48-71):
system admins pass; otherwise an active membership row for
`(user_id, lab_id)` must exist. -/
def verify_lab_access (db : Database) (user_id : Nat) (lab_id : Nat) : Bool :=
  let admin :=
    match db.get_user user_id with
    | some u => u.is_admin
    | none => false
  if admin then true
  else
    db.memberships.any (fun m => m.user_id == user_id && m.lab_id == lab_id && m.is_active)

/-- `list_labs` (`src/app/routes/labs.py` lines 22-46), success path:
admins get every active lab; other callers get the active labs whose id is
among `get_current_user_labs`. -/
def list_labs (db : Database) (current_user_id : Nat) : List Lab :=
  let admin :=
    match db.get_user current_user_id with
    | some u => u.is_admin
    | none => false
  if admin then
    db.labs.filter (fun l => l.is_active)
  else
    let user_lab_ids := get_current_user_labs db current_user_id
    db.labs.filter (fun l => user_lab_ids.contains l.id && l.is_active)

/-- `get_lab` (`src/app/routes/labs.py` lines 80-95) behind the
`require_lab_access` decorator (`src/app/utils/decorators.py` lines 52-89):
a failed `verify_lab_access` yields 403 before the handler body runs. -/
def get_lab (db : Database) (current_user_id : Nat) (lab_id : Nat) : ApiResult Lab :=
  if !(verify_lab_access db current_user_id lab_id) then
    ApiResult.error 403 "Access to this lab is forbidden"
  else
    match db.labs.find? (fun l => l.id == lab_id) with
    | none => ApiResult.error 404 "Lab not found"
    | some lab => ApiResult.ok 200 lab

/-- `add_lab_member` (`src/app/routes/labs.py` lines 170-216): rejects the
request when a membership row for the `(user, lab)` pair already exists —
the duplicate lookup does not filter on `is_active` — and only otherwise
appends a fresh active membership row. -/
def add_lab_member (db : Database) (lab_id : Nat) (req_user_id : Nat)
    (req_role : String) : ApiResult LabMembership × Database :=
  match db.labs.find? (fun l => l.id == lab_id) with
  | none => (ApiResult.error 404 "Lab not found", db)
  | some _ =>
    match db.get_user req_user_id with
    | none => (ApiResult.error 404 "User not found", db)
    | some _ =>
      match db.memberships.find? (fun m => m.user_id == req_user_id && m.lab_id == lab_id) with
      | some _ => (ApiResult.error 400 "User is already a member of this lab", db)
      | none =>
        let membership : LabMembership :=
          { user_id := req_user_id, lab_id := lab_id, role := req_role, is_active := true }
        (ApiResult.ok 201 membership,
         { db with memberships := db.memberships ++ [membership] })

/-- Replace the first element satisfying `p` by `f` of it: the ORM pattern
of mutating the single row returned by `query.filter_by(...).first()`. -/
def update_first {α : Type} (p : α → Bool) (f : α → α) : List α → List α
  | [] => []
  | x :: xs => if p x then f x :: xs else x :: update_first p f xs

/-- `grant_user_attribute` (`src/app/routes/attributes.py` lines 254-345):
after the membership and attribute checks, an existing `(user, lab,
attribute)` grant row is either a 409 conflict (still active) or is
reactivated in place — `is_active := true`, `granted_by`/`granted_at`
overwritten, `expires_at` overwritten only when the request supplies one;
with no existing row a fresh grant row is appended. -/
def grant_user_attribute (db : Database) (now : Int) (caller_id : Nat)
    (lab_id : Nat) (req_user_id : Nat) (req_attribute_id : Nat)
    (req_expires_at : Option Int) : ApiResult UserLabAttribute × Database :=
  match db.labs.find? (fun l => l.id == lab_id) with
  | none => (ApiResult.error 404 "Lab not found", db)
  | some _ =>
    if req_user_id == 0 || req_attribute_id == 0 then
      (ApiResult.error 400 "user_id and attribute_id are required", db)
    else if !(db.memberships.any (fun m =>
        m.user_id == req_user_id && m.lab_id == lab_id && m.is_active)) then
      (ApiResult.error 404 "User is not a member of this lab", db)
    else
      match db.attributes.find? (fun a => a.id == req_attribute_id && a.is_active) with
      | none => (ApiResult.error 404 "Attribute not found or inactive", db)
      | some _ =>
        let same_grant : UserLabAttribute → Bool := fun g =>
          g.user_id == req_user_id && g.lab_id == lab_id && g.attribute_id == req_attribute_id
        match db.user_lab_attributes.find? same_grant with
        | some existing =>
          if existing.is_active then
            (ApiResult.error 409 "User already has this attribute", db)
          else
            let reactivate : UserLabAttribute → UserLabAttribute := fun g =>
              { g with
                  is_active := true
                  granted_by := caller_id
                  granted_at := now
                  expires_at :=
                    match req_expires_at with
                    | some e => some e
                    | none => g.expires_at }
            (ApiResult.ok 200 (reactivate existing),
             { db with user_lab_attributes :=
                 update_first same_grant reactivate db.user_lab_attributes })
        | none =>
          let fresh : UserLabAttribute :=
            { user_id := req_user_id, lab_id := lab_id, attribute_id := req_attribute_id,
              granted_by := caller_id, granted_at := now,
              expires_at := req_expires_at, is_active := true }
          (ApiResult.ok 201 fresh,
           { db with user_lab_attributes := db.user_lab_attributes ++ [fresh] })

/-- `audit_logs` row, `src/app/models/token.py` lines 84-121 (request-scoped
ip/user-agent columns omitted). -/
structure AuditEntry where
  user_id : Option Nat
  action : String
  resource_type : Option String
  resource_id : Option Nat
  details : Option String
  success : Bool
deriving DecidableEq, Repr

/-- The body of the `try` block of `AuditLogger.log`
(`src/app/utils/audit.py` lines 27-45): `session.add` + `session.commit`,
which may raise.  Whether the persist step fails is an environment input,
modelled by the `persist_fails` flag. -/
def audit_log_attempt (persist_fails : Bool) (entry : AuditEntry)
    (log : List AuditEntry) : Except String (List AuditEntry) :=
  if persist_fails then Except.error "Failed to create audit log"
  else Except.ok (log ++ [entry])

/-- `AuditLogger.log` (`src/app/utils/audit.py` lines 27-53): the `except`
clause catches any persistence failure, rolls the session back and returns
normally — the function is total and never surfaces an error. -/
def AuditLogger.log (persist_fails : Bool) (entry : AuditEntry)
    (log : List AuditEntry) : List AuditEntry :=
  match audit_log_attempt persist_fails entry log with
  | Except.ok newLog => newLog
  | Except.error _ => log

/-- A business operation followed by its best-effort audit write, the
calling pattern of `src/app/routes/auth.py`: the audit leg cannot change or
fail the business outcome. -/
def run_business_with_audit {α : Type} (business : Except String α)
    (persist_fails : Bool) (entry : AuditEntry) (log : List AuditEntry) :
    Except String α × List AuditEntry :=
  match business with
  | Except.error e => (Except.error e, log)
  | Except.ok a => (Except.ok a, AuditLogger.log persist_fails entry log)

/-- Modelled from the spec: the effective-attribute resolver
`get_user_attributes` is imported by `src/app/utils/attribute_decorators.py`
from `app.routes.auth`, but its definition is absent from the source tree;
this follows spec section 4.4 (`EffectiveAttributes`) step by step — the
system-admin fast path over `Attribute.get_lab_attributes`, then the
caller's role in the lab, role-attribute grants (system-wide or
lab-scoped) over active attributes, valid user-attribute grants over
active attributes, and the union of the two as a set of names. -/
def get_user_attributes (db : Database) (now : Int) (user_id : Nat)
    (lab_id : Nat) : List String :=
  match db.get_user user_id with
  | none => []
  | some u =>
    if u.is_admin then
      (Attribute.get_lab_attributes db.attributes).map (fun a => a.name)
    else
      match db.memberships.find? (fun m =>
          m.user_id == user_id && m.lab_id == lab_id && m.is_active) with
      | none => []
      | some m =>
        let role_attr_ids := (db.role_attributes.filter (fun ra =>
            ra.role_name == m.role &&
              (ra.lab_id == none || ra.lab_id == some lab_id))).map
          (fun ra => ra.attribute_id)
        let user_attr_ids := (db.user_lab_attributes.filter (fun g =>
            g.user_id == user_id && g.lab_id == lab_id && g.is_valid now)).map
          (fun g => g.attribute_id)
        ((((role_attr_ids ++ user_attr_ids).filterMap (fun i =>
            db.attributes.find? (fun a => a.id == i && a.is_active))).map
          (fun a => a.name)).dedup)

/-- Grant validity as the specification words it, for comparison with the
code's `UserLabAttribute.is_valid`: active and (no expiry or the expiry
timestamp lies strictly in the future). -/
def spec_valid_expiry_in_future (g : UserLabAttribute) (now : Int) : Bool :=
  g.is_active &&
    (match g.expires_at with
     | none => true
     | some t => now < t)

/-- A baseline non-admin user record with empty credential state. -/
def mkUser (uid : Nat) (uname : String) (admin : Bool) : User :=
  { id := uid, username := uname, email := uname ++ "@example.org",
    password_hash := none, is_active := true, is_admin := admin,
    email_verified := true, locked_until := none, failed_login_attempts := 0,
    last_login_at := none, password_changed_at := none,
    password_expires_at := none, password_history := [],
    require_password_change := false }

/-- Concrete store for the listing-isolation analysis: user 7 is not a
system admin, lab 1 is deactivated, yet user 7 holds an active membership
row in lab 1; lab 2 is active and user 7 holds an active membership there
as well, while lab 3 is active with no membership for user 7. -/
def dbIsolation : Database :=
  { users := [mkUser 7 "carol" false],
    labs := [{ id := 1, name := "Hematology", code := "HEM", is_active := false },
             { id := 2, name := "Pathology", code := "PAT", is_active := true },
             { id := 3, name := "Genomics", code := "GEN", is_active := true }],
    memberships := [{ user_id := 7, lab_id := 1, role := "member", is_active := true },
                    { user_id := 7, lab_id := 2, role := "viewer", is_active := true }],
    attributes := [],
    role_attributes := [],
    user_lab_attributes := [] }

/-- Concrete store for the admin fast-path analysis: user 9 is a system
admin with no membership anywhere; two active `lab` attributes, one
inactive `lab` attribute and one active `system` attribute exist. -/
def dbAdmin : Database :=
  { users := [mkUser 9 "root" true],
    labs := [{ id := 4, name := "Microbiology", code := "MIC", is_active := true }],
    memberships := [],
    attributes := [{ id := 1, name := "lab.patient.read", category := "lab", is_active := true },
                   { id := 2, name := "lab.patient.write", category := "lab", is_active := true },
                   { id := 3, name := "lab.data.export", category := "lab", is_active := false },
                   { id := 4, name := "system.users.manage", category := "system", is_active := true }],
    role_attributes := [],
    user_lab_attributes := [] }

/-- Concrete store for the duplicate-membership analysis: user 5 already
has a membership row in lab 6, soft-deactivated (`is_active = false`). -/
def dbConflict : Database :=
  { users := [mkUser 5 "dave" false],
    labs := [{ id := 6, name := "Serology", code := "SER", is_active := true }],
    memberships := [{ user_id := 5, lab_id := 6, role := "member", is_active := false }],
    attributes := [],
    role_attributes := [],
    user_lab_attributes := [] }

/-- Concrete store for the grant-reactivation analysis: user 5 is an active
member of lab 6; attribute 2 is active; the `(5, 6, 2)` grant row exists,
revoked (`is_active = false`) and already expired at time 50. -/
def dbRegrant : Database :=
  { users := [mkUser 5 "dave" false, mkUser 8 "erin" false],
    labs := [{ id := 6, name := "Serology", code := "SER", is_active := true }],
    memberships := [{ user_id := 5, lab_id := 6, role := "member", is_active := true },
                    { user_id := 8, lab_id := 6, role := "admin", is_active := true }],
    attributes := [{ id := 2, name := "lab.patient.write", category := "lab", is_active := true }],
    role_attributes := [],
    user_lab_attributes :=
      [{ user_id := 5, lab_id := 6, attribute_id := 2, granted_by := 8,
         granted_at := 0, expires_at := some 50, is_active := false }] }

/-- A grant whose expiry is exactly the chosen read instant 100. -/
def boundaryGrant : UserLabAttribute :=
  { user_id := 1, lab_id := 1, attribute_id := 1, granted_by := 2,
    granted_at := 0, expires_at := some 100, is_active := true }

/-- A reset token whose expiry is exactly the chosen read instant 100. -/
def boundaryResetToken : PasswordResetToken :=
  { user_id := 1, token := "rtok", expires_at := 100, used := false }

/-- A verification token whose expiry is exactly the read instant 100. -/
def boundaryVerifyToken : EmailVerificationToken :=
  { user_id := 1, email := "new@example.org", token := "vtok",
    expires_at := 100, used := false }

/-! ## Helper lemmas -/

theorem lastN_zero {α : Type} (l : List α) : lastN 0 l = [] := by
  unfold lastN
  simp

theorem lastN_append {α : Type} (n : Nat) (l l2 : List α)
    (hn : l2.length ≤ n) : lastN n (l ++ l2) = lastN (n - l2.length) l ++ l2 := by
  unfold lastN
  rw [List.drop_append_eq_append_drop, List.length_append]
  have h1 : l.length + l2.length - n = l.length - (n - l2.length) := by omega
  rw [h1]
  have h2 : l.length - (n - l2.length) - l.length = 0 := by omega
  rw [h2, List.drop_zero]

theorem lastN_lastN {α : Type} (m n : Nat) (l : List α) :
    lastN m (lastN n l) = lastN (min m n) l := by
  unfold lastN
  rw [List.length_drop, List.drop_drop]
  congr 1
  omega

theorem lastN_push_five {α : Type} (h : List α) (e1 e2 e3 e4 e5 : α) :
    lastN 5 (lastN 5 (lastN 5 (lastN 5 (lastN 5 (h ++ [e1]) ++ [e2]) ++ [e3]) ++ [e4]) ++ [e5]) =
      [e1, e2, e3, e4, e5] := by
  simp [lastN_append, lastN_lastN, lastN_zero, Nat.min_def]

theorem length_update_first {α : Type} (p : α → Bool) (f : α → α) (l : List α) :
    (update_first p f l).length = l.length := by
  induction l with
  | nil => rfl
  | cons x xs ih =>
    unfold update_first
    by_cases hx : p x <;> simp [hx, ih]

theorem find?_update_first_mem {α : Type} (p : α → Bool) (f : α → α)
    (l : List α) (g : α) (hfind : l.find? p = some g) :
    f g ∈ update_first p f l := by
  induction l with
  | nil => simp at hfind
  | cons x xs ih =>
    unfold update_first
    by_cases hx : p x
    · rw [List.find?_cons_of_pos _ hx] at hfind
      simp only [Option.some.injEq] at hfind
      subst hfind
      simp [hx]
    · rw [List.find?_cons_of_neg _ (by simpa using hx)] at hfind
      simp [hx, ih hfind]

/-! ## Claims -/

/-- Claim C3: a user whose failure counter is 0 is locked after 5
consecutive failed login attempts — `locked_until` lands 30 minutes after
the fifth attempt, `is_locked` is true at that instant, and once the clock
reaches `locked_until` the account reads as unlocked without any
`unlock_account` call. -/
theorem C3_lockout_after_five_failures (u : User) (t1 t2 t3 t4 t5 : Int)
    (h0 : u.failed_login_attempts = 0) :
    (record_failures u [t1, t2, t3, t4, t5]).locked_until = some (t5 + 30) ∧
    (record_failures u [t1, t2, t3, t4, t5]).is_locked t5 = true ∧
    ∀ now, t5 + 30 ≤ now →
      (record_failures u [t1, t2, t3, t4, t5]).is_locked now = false := by
  have hstate : record_failures u [t1, t2, t3, t4, t5] =
      { u with failed_login_attempts := 0, locked_until := some (t5 + 30) } := by
    simp [record_failures, User.record_login_attempt, User.lock_account, h0]
  refine ⟨by rw [hstate], ?_, ?_⟩
  · rw [hstate]
    show decide (t5 < t5 + 30) = true
    simp only [decide_eq_true_eq]
    omega
  · intro now hnow
    rw [hstate]
    show decide (now < t5 + 30) = false
    simp only [decide_eq_false_iff_not]
    omega

/-- Claim C3 witness: a concrete fresh user locked by five failures at
times 0..4. -/
theorem C3_lockout_after_five_failures_witness :
    (record_failures (mkUser 1 "alice" false) [0, 1, 2, 3, 4]).locked_until = some (4 + 30) ∧
    (record_failures (mkUser 1 "alice" false) [0, 1, 2, 3, 4]).is_locked 4 = true ∧
    (record_failures (mkUser 1 "alice" false) [0, 1, 2, 3, 4]).is_locked 34 = false := by
  have h := C3_lockout_after_five_failures (mkUser 1 "alice" false) 0 1 2 3 4 rfl
  exact ⟨h.1, h.2.1, h.2.2 34 (by decide)⟩

/-- Claim C4 counterexample: starting from a fresh user, after six
`set_password` calls with distinct passwords pw1..pw6 the reuse check still
flags pw1 as blocked — the claim predicted pw1 would be allowed (outside
the window), but only five predecessor hashes exist and pw1's is among
them. -/
theorem C4_reuse_counterexample :
    (set_passwords (mkUser 1 "alice" false) 0
        ["pw1", "pw2", "pw3", "pw4", "pw5", "pw6"]).check_password_reuse "pw1" = true := by
  decide

/-- The password history after six `set_password` calls holds exactly the
hashes of the first five of the six plaintexts, whatever the user's prior
credential state. -/
theorem set_passwords_six_history (u : User) (now : Int)
    (p1 p2 p3 p4 p5 p6 : String) :
    (set_passwords u now [p1, p2, p3, p4, p5, p6]).password_history =
      [generate_password_hash p1, generate_password_hash p2, generate_password_hash p3,
       generate_password_hash p4, generate_password_hash p5] := by
  cases hph : u.password_hash with
  | none =>
    simp only [set_passwords, List.foldl, User.set_password, hph]
    exact lastN_push_five _ _ _ _ _ _
  | some h0 =>
    simp only [set_passwords, List.foldl, User.set_password, hph]
    exact lastN_push_five _ _ _ _ _ _

/-- Claim C4 (amended): after six `set_password` calls with distinct
passwords P1..P6, `check_password_reuse` blocks each of P1..P5 and allows
P6 (the current password, never in the history); the history holds at most
the last 5 predecessor hashes, the oldest evicted.  P1 only leaves the
window on a seventh call. -/
theorem C4_password_history_window (u : User) (now : Int)
    (p1 p2 p3 p4 p5 p6 : String)
    (h16 : p1 ≠ p6) (h26 : p2 ≠ p6) (h36 : p3 ≠ p6)
    (h46 : p4 ≠ p6) (h56 : p5 ≠ p6) :
    (set_passwords u now [p1, p2, p3, p4, p5, p6]).check_password_reuse p1 = true ∧
    (set_passwords u now [p1, p2, p3, p4, p5, p6]).check_password_reuse p2 = true ∧
    (set_passwords u now [p1, p2, p3, p4, p5, p6]).check_password_reuse p3 = true ∧
    (set_passwords u now [p1, p2, p3, p4, p5, p6]).check_password_reuse p4 = true ∧
    (set_passwords u now [p1, p2, p3, p4, p5, p6]).check_password_reuse p5 = true ∧
    (set_passwords u now [p1, p2, p3, p4, p5, p6]).check_password_reuse p6 = false ∧
    (set_passwords u now [p1, p2, p3, p4, p5, p6]).password_history.length ≤ 5 := by
  simp [User.check_password_reuse, set_passwords_six_history, check_password_hash,
    generate_password_hash, HashVal.mk.injEq, h16, h26, h36, h46, h56]

/-- Claim C4 witness: the amended window behaviour on a concrete fresh user
and passwords pw1..pw6. -/
theorem C4_password_history_window_witness :
    (set_passwords (mkUser 1 "alice" false) 0
        ["pw1", "pw2", "pw3", "pw4", "pw5", "pw6"]).check_password_reuse "pw2" = true ∧
    (set_passwords (mkUser 1 "alice" false) 0
        ["pw1", "pw2", "pw3", "pw4", "pw5", "pw6"]).check_password_reuse "pw6" = false := by
  have h := C4_password_history_window (mkUser 1 "alice" false) 0
    "pw1" "pw2" "pw3" "pw4" "pw5" "pw6"
    (by decide) (by decide) (by decide) (by decide) (by decide)
  exact ⟨h.2.1, h.2.2.2.2.2.1⟩

/-- Claim C5 counterexample: at the instant `now = expires_at` the code
reports the grant valid, while the claim's "expiry lies in the future"
reading reports it invalid — the iff fails at the boundary. -/
theorem C5_boundary_counterexample :
    boundaryGrant.is_valid 100 = true ∧
    spec_valid_expiry_in_future boundaryGrant 100 = false := by
  decide

/-- Claim C5 (amended): a grant is valid iff it is active and either no
expiry is set or the expiry has not yet been strictly passed by the clock
(`now ≤ expires_at`); the check is a pure read-time computation. -/
theorem C5_grant_validity (g : UserLabAttribute) (now : Int) :
    g.is_valid now = true ↔
      (g.is_active = true ∧ ∀ t, g.expires_at = some t → now ≤ t) := by
  unfold UserLabAttribute.is_valid UserLabAttribute.is_expired
  cases hexp : g.expires_at with
  | none => simp [hexp]
  | some t =>
    simp only [hexp, Bool.and_eq_true, Bool.not_eq_true', decide_eq_false_iff_not,
      Option.some.injEq]
    constructor
    · rintro ⟨ha, hlt⟩
      exact ⟨ha, fun s hs => by cases hs; omega⟩
    · rintro ⟨ha, hall⟩
      exact ⟨ha, by have := hall t rfl; omega⟩

/-- Claim C6: once `mark_used` has run, `is_valid` is false at every time
for both token kinds; iterating the model's only mutating operation never
resurrects the token. -/
theorem C6_token_single_use (t : PasswordResetToken) (s : EmailVerificationToken)
    (j k : Nat) (now now2 : Int) :
    (PasswordResetToken.mark_used^[j] t.mark_used).is_valid now = false ∧
    (EmailVerificationToken.mark_used^[k] s.mark_used).is_valid now2 = false := by
  have ht : ∀ (n : Nat) (x : PasswordResetToken), x.used = true →
      (PasswordResetToken.mark_used^[n] x).used = true := by
    intro n
    induction n with
    | zero => intro x hx; simpa using hx
    | succ m ih =>
      intro x hx
      rw [Function.iterate_succ_apply]
      exact ih _ rfl
  have hs : ∀ (n : Nat) (x : EmailVerificationToken), x.used = true →
      (EmailVerificationToken.mark_used^[n] x).used = true := by
    intro n
    induction n with
    | zero => intro x hx; simpa using hx
    | succ m ih =>
      intro x hx
      rw [Function.iterate_succ_apply]
      exact ih _ rfl
  constructor
  · have := ht j t.mark_used rfl
    simp [PasswordResetToken.is_valid, this]
  · have := hs k s.mark_used rfl
    simp [EmailVerificationToken.is_valid, this]

/-- Claim C8: the audit write is total — a persistence failure is swallowed
(the log is simply left unchanged) and the triggering business operation's
outcome is identical whether or not the audit persist fails. -/
theorem C8_audit_failure_swallowed {α : Type} (business : Except String α)
    (persist_fails : Bool) (entry : AuditEntry) (log : List AuditEntry) :
    AuditLogger.log persist_fails entry log =
      (if persist_fails then log else log ++ [entry]) ∧
    (run_business_with_audit business persist_fails entry log).1 = business := by
  constructor
  · unfold AuditLogger.log audit_log_attempt
    cases persist_fails <;> simp
  · unfold run_business_with_audit
    cases business <;> simp

/-- Claim C10: at the instant the clock equals `expires_at`, a user-attribute
grant is not yet expired (strict greater-than) and an active grant is still
valid, while password-reset and email-verification tokens are already
invalid (strict less-than). -/
theorem C10_expiry_boundary (e : Int) (g : UserLabAttribute)
    (t : PasswordResetToken) (s : EmailVerificationToken)
    (hg : g.expires_at = some e) (hact : g.is_active = true)
    (htu : t.used = false) (hte : t.expires_at = e)
    (hsu : s.used = false) (hse : s.expires_at = e) :
    g.is_expired e = false ∧ g.is_valid e = true ∧
    t.is_valid e = false ∧ s.is_valid e = false := by
  unfold UserLabAttribute.is_valid UserLabAttribute.is_expired
    PasswordResetToken.is_valid EmailVerificationToken.is_valid
  rw [hg, hact, htu, hte, hsu, hse]
  simp

/-- Claim C10 witness: concrete grant and tokens all expiring at time 100,
read at time 100. -/
theorem C10_expiry_boundary_witness :
    boundaryGrant.is_expired 100 = false ∧ boundaryGrant.is_valid 100 = true ∧
    boundaryResetToken.is_valid 100 = false ∧
    boundaryVerifyToken.is_valid 100 = false :=
  C10_expiry_boundary 100 boundaryGrant boundaryResetToken boundaryVerifyToken
    rfl rfl rfl rfl rfl rfl

/-- Claim C1: for a system-admin caller the effective-attribute resolution
returns the names of all active `lab`-category attributes, for every lab id
and independently of the membership table. -/
theorem C1_admin_gets_all_lab_attributes (db : Database) (now : Int)
    (uid lid lid2 : Nat) (ms : List LabMembership) (u : User)
    (hu : db.get_user uid = some u) (hadmin : u.is_admin = true) :
    get_user_attributes db now uid lid =
      (Attribute.get_lab_attributes db.attributes).map (fun a => a.name) ∧
    get_user_attributes { db with memberships := ms } now uid lid2 =
      get_user_attributes db now uid lid := by
  have hu2 : Database.get_user { db with memberships := ms } uid = some u := hu
  constructor
  · unfold get_user_attributes
    simp [hu, hadmin]
  · unfold get_user_attributes
    simp [hu, hu2, hadmin]

/-- Claim C1 witness: the concrete admin user 9, who belongs to no lab,
resolves to the two active `lab` attributes for lab 4, and the result is
unchanged when a membership row is added and another lab id is asked. -/
theorem C1_admin_gets_all_lab_attributes_witness :
    get_user_attributes dbAdmin 0 9 4 =
      (Attribute.get_lab_attributes dbAdmin.attributes).map (fun a => a.name) ∧
    get_user_attributes
      { dbAdmin with memberships :=
          [{ user_id := 9, lab_id := 4, role := "viewer", is_active := true }] }
      0 9 77 = get_user_attributes dbAdmin 0 9 4 :=
  C1_admin_gets_all_lab_attributes dbAdmin 0 9 4 77
    [{ user_id := 9, lab_id := 4, role := "viewer", is_active := true }]
    (mkUser 9 "root" true) (by decide) rfl

/-- Claim C2 counterexample: user 7 is not a system admin and holds an
active membership row in lab 1, yet `list_labs` omits lab 1 because the lab
row itself is deactivated — the listing is not exactly the set of labs with
an active membership. -/
theorem C2_isolation_counterexample :
    dbIsolation.get_user 7 = some (mkUser 7 "carol" false) ∧
    (mkUser 7 "carol" false).is_admin = false ∧
    ({ user_id := 7, lab_id := 1, role := "member", is_active := true } :
        LabMembership) ∈ dbIsolation.memberships ∧
    ({ id := 1, name := "Hematology", code := "HEM", is_active := false } :
        Lab) ∈ dbIsolation.labs ∧
    list_labs dbIsolation 7 =
      [{ id := 2, name := "Pathology", code := "PAT", is_active := true }] := by
  decide

/-- Claim C2 (amended): for a non-admin caller the listing returns exactly
the active labs (`Lab.is_active`) in which the caller holds an active
membership row, and a point-read of any lab in which the caller holds no
active membership fails with Forbidden (HTTP 403). -/
theorem C2_tenant_isolation (db : Database) (uid : Nat) (u : User)
    (hu : db.get_user uid = some u) (hadmin : u.is_admin = false) :
    (∀ l, l ∈ list_labs db uid ↔
      (l ∈ db.labs ∧ l.is_active = true ∧
        ∃ m ∈ db.memberships,
          m.user_id = uid ∧ m.lab_id = l.id ∧ m.is_active = true)) ∧
    (∀ lab_id,
      (¬ ∃ m ∈ db.memberships,
          m.user_id = uid ∧ m.lab_id = lab_id ∧ m.is_active = true) →
      get_lab db uid lab_id = ApiResult.error 403 "Access to this lab is forbidden") := by
  constructor
  · intro l
    unfold list_labs get_current_user_labs
    rw [hu]
    simp [hadmin, List.contains, List.mem_filter]
    intro _
    constructor
    · rintro ⟨⟨m, ⟨hm, h1, h2⟩, h3⟩, h4⟩
      exact ⟨h4, m, hm, h1, h3, h2⟩
    · rintro ⟨h4, m, hm, h1, h3, h2⟩
      exact ⟨⟨m, ⟨hm, h1, h2⟩, h3⟩, h4⟩
  · intro lab_id hno
    unfold get_lab verify_lab_access
    rw [hu]
    have hany : db.memberships.any
        (fun m => m.user_id == uid && m.lab_id == lab_id && m.is_active) = false := by
      rw [List.any_eq_false]
      intro m hm
      intro hp
      apply hno
      simp only [Bool.and_eq_true, beq_iff_eq] at hp
      exact ⟨m, hm, hp.1.1, hp.1.2, hp.2⟩
    simp [hadmin, hany]

/-- Claim C2 witness: non-admin user 7 point-reading lab 3, where no active
membership exists, receives Forbidden. -/
theorem C2_tenant_isolation_witness :
    get_lab dbIsolation 7 3 = ApiResult.error 403 "Access to this lab is forbidden" :=
  (C2_tenant_isolation dbIsolation 7 (mkUser 7 "carol" false) (by decide) rfl).2
    3 (by decide)

/-- Claim C7: when a membership row for the `(user, lab)` pair already
exists — active or not — `add_lab_member` fails with the duplicate-member
conflict error and returns the store unchanged: no row is created and no
existing row is touched. -/
theorem C7_add_member_duplicate_rejected (db : Database) (lab_id uid : Nat)
    (role : String) (l : Lab) (u : User) (m : LabMembership)
    (hl : db.labs.find? (fun x => x.id == lab_id) = some l)
    (hu : db.get_user uid = some u)
    (hm : db.memberships.find?
        (fun x => x.user_id == uid && x.lab_id == lab_id) = some m) :
    add_lab_member db lab_id uid role =
      (ApiResult.error 400 "User is already a member of this lab", db) := by
  unfold add_lab_member
  rw [hl, hu, hm]

/-- Claim C7 witness: user 5 already has a soft-deactivated membership row
in lab 6; re-adding fails and the store is unchanged. -/
theorem C7_add_member_duplicate_rejected_witness :
    add_lab_member dbConflict 6 5 "member" =
      (ApiResult.error 400 "User is already a member of this lab", dbConflict) :=
  C7_add_member_duplicate_rejected dbConflict 6 5 "member"
    { id := 6, name := "Serology", code := "SER", is_active := true }
    (mkUser 5 "dave" false)
    { user_id := 5, lab_id := 6, role := "member", is_active := false }
    (by decide) (by decide) (by decide)

/-- Claim C9: granting an attribute for which a deactivated grant row
already exists reactivates that row in place — the result is the existing
row with `is_active := true`, `granted_by`/`granted_at` overwritten and the
identity fields untouched; `expires_at` is overwritten exactly when the
request supplies one; the table gains no row and the other tables are
untouched; and with no new expiry a grant whose old expiry has passed is
immediately invalid. -/
theorem C9_grant_reactivation (db : Database) (now : Int)
    (caller lab_id uid attr_id : Nat) (e : Option Int)
    (l : Lab) (a : Attribute) (g : UserLabAttribute)
    (hl : db.labs.find? (fun x => x.id == lab_id) = some l)
    (hu0 : uid ≠ 0) (ha0 : attr_id ≠ 0)
    (hmem : db.memberships.any
        (fun m => m.user_id == uid && m.lab_id == lab_id && m.is_active) = true)
    (hattr : db.attributes.find? (fun x => x.id == attr_id && x.is_active) = some a)
    (hg : db.user_lab_attributes.find?
        (fun x => x.user_id == uid && x.lab_id == lab_id && x.attribute_id == attr_id)
        = some g)
    (hinact : g.is_active = false) :
    (grant_user_attribute db now caller lab_id uid attr_id e).1 =
      ApiResult.ok 200
        { g with
            is_active := true
            granted_by := caller
            granted_at := now
            expires_at := match e with | some t => some t | none => g.expires_at } ∧
    (grant_user_attribute db now caller lab_id uid attr_id e).2.user_lab_attributes.length =
      db.user_lab_attributes.length ∧
    { g with
        is_active := true
        granted_by := caller
        granted_at := now
        expires_at := match e with | some t => some t | none => g.expires_at } ∈
      (grant_user_attribute db now caller lab_id uid attr_id e).2.user_lab_attributes ∧
    (grant_user_attribute db now caller lab_id uid attr_id e).2.users = db.users ∧
    (grant_user_attribute db now caller lab_id uid attr_id e).2.labs = db.labs ∧
    (grant_user_attribute db now caller lab_id uid attr_id e).2.memberships = db.memberships ∧
    (grant_user_attribute db now caller lab_id uid attr_id e).2.attributes = db.attributes ∧
    (grant_user_attribute db now caller lab_id uid attr_id e).2.role_attributes =
      db.role_attributes ∧
    (e = none → g.is_expired now = true →
      UserLabAttribute.is_valid
        { g with
            is_active := true
            granted_by := caller
            granted_at := now
            expires_at := match e with | some t => some t | none => g.expires_at } now
        = false) := by
  have hres : grant_user_attribute db now caller lab_id uid attr_id e =
      (ApiResult.ok 200
        { g with
            is_active := true
            granted_by := caller
            granted_at := now
            expires_at := match e with | some t => some t | none => g.expires_at },
       { db with user_lab_attributes :=
           (update_first
             (fun x => x.user_id == uid && x.lab_id == lab_id && x.attribute_id == attr_id)
             (fun x =>
               { x with
                   is_active := true
                   granted_by := caller
                   granted_at := now
                   expires_at := match e with | some t => some t | none => x.expires_at })
             db.user_lab_attributes) }) := by
    unfold grant_user_attribute
    rw [hl]
    have hz : (uid == 0 || attr_id == 0) = false := by
      simp [hu0, ha0]
    rw [hz]
    simp only [Bool.false_eq_true, if_false, hmem, Bool.not_true]
    rw [hattr, hg]
    simp [hinact]
  refine ⟨by rw [hres], by rw [hres]; exact length_update_first _ _ _, ?_, by rw [hres],
    by rw [hres], by rw [hres], by rw [hres], by rw [hres], ?_⟩
  · rw [hres]
    exact find?_update_first_mem _ _ _ _ hg
  · intro he hexp
    subst he
    unfold UserLabAttribute.is_expired at hexp
    unfold UserLabAttribute.is_valid UserLabAttribute.is_expired
    cases hx : g.expires_at with
    | none =>
      rw [hx] at hexp
      simp at hexp
    | some t =>
      rw [hx] at hexp
      simp at hexp
      simp [hx, hexp]

/-- Claim C9 witness: the revoked, already-expired grant `(5, 6, 2)` in
`dbRegrant` is reactivated at time 60 with no new expiry: same row count,
fields overwritten, old expiry 50 kept, and the grant reads as invalid at
time 60. -/
theorem C9_grant_reactivation_witness :
    (grant_user_attribute dbRegrant 60 8 6 5 2 none).1 =
      ApiResult.ok 200
        { user_id := 5, lab_id := 6, attribute_id := 2, granted_by := 8,
          granted_at := 60, expires_at := some 50, is_active := true } ∧
    (grant_user_attribute dbRegrant 60 8 6 5 2 none).2.user_lab_attributes.length =
      dbRegrant.user_lab_attributes.length ∧
    UserLabAttribute.is_valid
      { user_id := 5, lab_id := 6, attribute_id := 2, granted_by := 8,
        granted_at := 60, expires_at := some 50, is_active := true } 60 = false := by
  have h := C9_grant_reactivation dbRegrant 60 8 6 5 2 none
    { id := 6, name := "Serology", code := "SER", is_active := true }
    { id := 2, name := "lab.patient.write", category := "lab", is_active := true }
    { user_id := 5, lab_id := 6, attribute_id := 2, granted_by := 8,
      granted_at := 0, expires_at := some 50, is_active := false }
    (by decide) (by decide) (by decide) (by decide) (by decide) (by decide) rfl
  exact ⟨h.1, h.2.1, h.2.2.2.2.2.2.2.2 rfl rfl⟩

end LHUMS
